import Mathlib

/-
Verification of the osgeo-manager source-abstraction, schema-comparison and
backup-orchestration subsystem.

Shallow embedding of:
  - src/osgeo_manager/mixins.py   (OSGEOManagerMixin: open_source,
    source_layer_exists, get_source_layers, compare_schema)
  - src/osgeo_manager/base_manager.py (OSGEOManager: layer_to_postgis,
    postgis_as_gpkg, backup_portal)

The native vector driver (the osgeo/ogr library) is an external collaborator;
it is modelled by the contract stated in the design (open returns a handle or
an absent value, a source is an ordered collection of named layers, lookup by
name, copy of a layer into a destination source).  Exceptions of the Python
code are modelled by the Except monad; the distinguished error values carry
which kind of exception was raised.
-/

set_option autoImplicit false

namespace OsgeoManager

/-! ## Strings

Small character-level helpers used instead of the corresponding Python string
methods, so that every definition reduces inside the kernel.  They agree with
the Python methods on the ASCII inputs that appear in this development. -/

/-- ASCII lower-casing of a string, as Python str.lower on ASCII input. -/
def toLowerStr (s : String) : String :=
  (s.toList.map Char.toLower).asString

/-- Boolean suffix test: does s end with the string suffix. -/
def strEndsWith (s suff : String) : Bool :=
  s.toList.reverse.take suff.toList.length == suff.toList.reverse

/-- The part of s after the last colon, as Python s.split(":").pop(). -/
def lastSplitPart (s : String) : String :=
  (s.toList.foldl (fun acc c => if c = ':' then [] else acc ++ [c]) []).asString

/-- Lexicographic code-point comparison of character lists; the order Python
uses to compare strings. -/
def charListLt : List Char → List Char → Bool
  | [], [] => false
  | [], _ :: _ => true
  | _ :: _, [] => false
  | a :: as, b :: bs =>
    if a.toNat < b.toNat then true
    else if b.toNat < a.toNat then false
    else charListLt as bs

/-- Strict lexicographic string comparison by code point, as Python
string comparison. -/
def strLt (a b : String) : Bool := charListLt a.toList b.toList

/-! ## Errors

Python exceptions are modelled as values.  sourceOpenError and
layerNotFoundError are the names used by the design document (section 7);
assertionError, attributeError and typeError are the Python built-in
exceptions the code actually raises; generic carries the message of a plain
raise Exception(msg). -/

/-- The exception values a run of the embedded code can raise. -/
inductive PyErr where
  | sourceOpenError
  | layerNotFoundError
  | assertionError
  | attributeError
  | typeError
  | generic (msg : String)
deriving DecidableEq

/-! ## The native driver model -/

/-- A field of a full schema: (field name, field type, field width). -/
abbrev FieldTuple := String × String × Nat

/-- A layer of an opened source: a name plus its full schema. -/
structure OgrLayer where
  name : String
  fields : List FieldTuple
deriving DecidableEq

/-- An opened data source: an ordered collection of layers
(the iteration order of the Python source object). -/
structure OgrSource where
  layers : List OgrLayer
deriving DecidableEq

/-- source.GetLayerByName(name): the first layer with the given name,
or an absent value. -/
def OgrSource.GetLayerByName (source : OgrSource) (layername : String) : Option OgrLayer :=
  source.layers.find? (fun l => l.name == layername)

/-- Modelled from the spec: the reserved style-table name of constants.py,
which is not under src/.  The concrete value is immaterial to every claim:
all statements below treat it as an opaque reserved name. -/
def STYLES_TABLE : String := "layer_styles"

/-- Modelled from the spec: GpkgLayer of layer_manager.py is not under src/.
Per the LayerView component it is a read-only wrapper around one layer inside
an opened source, exposing the layer name; get_source_layers constructs it
as GpkgLayer(layer, source). -/
structure GpkgLayer where
  gpkg_layer : OgrLayer
  source : OgrSource
deriving DecidableEq

/-- The name exposed by the LayerView wrapper: the wrapped layer name. -/
def GpkgLayer.name (l : GpkgLayer) : String := l.gpkg_layer.name

/-! ## mixins.py : OSGEOManagerMixin -/

/-- OSGEOManagerMixin.source_layer_exists: GetLayerByName and truthiness test
of the result (a layer object is truthy, None is falsy). -/
def source_layer_exists (source : OgrSource) (layername : String) : Bool :=
  (source.GetLayerByName layername).isSome

/-- OSGEOManagerMixin.get_source_layers: every layer of the source, in source
order, wrapped in GpkgLayer, skipping the reserved style-table name by exact
inequality. -/
def get_source_layers (source : OgrSource) : List GpkgLayer :=
  (source.layers.filter (fun l => l.name != STYLES_TABLE)).map
    (fun l => GpkgLayer.mk l source)

/-- The events the open_source scope performs on the underlying handle.
flushed models source.FlushCache(); released models the final clearing of the
generator reference to the handle (source = None). -/
inductive ScopeEvent where
  | flushed
  | released
deriving DecidableEq

/-- OSGEOManagerMixin.open_source, a context-managed generator:

    source = ogr.Open(source_path, update_enabled)
    yield source
    source.FlushCache()
    source = None

opener models ogr.Open (absent value when the location cannot be opened);
body is the code of the with block, which may raise.  When the body raises,
the exception is thrown back into the generator at the yield point and
propagates: neither the flush nor the reference clearing is executed.  When
the body returns normally, FlushCache runs (raising attributeError when the
opened handle is absent, since None has no FlushCache attribute) and then the
reference is cleared. -/
def open_source {α : Type} (opener : String → Nat → Option OgrSource)
    (source_path : String) (update_enabled : Nat)
    (body : Option OgrSource → Except PyErr α) :
    Except PyErr α × List ScopeEvent :=
  let source := opener source_path update_enabled
  match body source with
  | Except.error e => (Except.error e, [])
  | Except.ok a =>
    match source with
    | none => (Except.error PyErr.attributeError, [])
    | some _ => (Except.ok a, [ScopeEvent.flushed, ScopeEvent.released])

/-- Lower-case the field-name element of a schema tuple, leaving type and
width untouched. -/
def lowerName (f : FieldTuple) : FieldTuple := (toLowerStr f.1, f.2.1, f.2.2)

/-- Stable insertion of a field in front of the first field whose name is not
smaller; inserting an originally-earlier element this way reproduces the
stable ascending-by-name ordering of the Python list sort with
key=field[0]. -/
def insertByName (f : FieldTuple) : List FieldTuple → List FieldTuple
  | [] => [f]
  | g :: gs => if strLt g.1 f.1 then g :: insertByName f gs else f :: g :: gs

/-- Stable ascending sort of a schema by field name, as
schema.sort(key=lambda field: field[0]). -/
def sortByName (s : List FieldTuple) : List FieldTuple :=
  s.foldr insertByName []

/-- The schema as compare_schema sees it: optionally case-normalized, then
sorted ascending by field name. -/
def normSchema (ignore_case : Bool) (s : List FieldTuple) : List FieldTuple :=
  sortByName (if ignore_case then s.map lowerName else s)

/-- The report produced by compare_schema. -/
structure SchemaDiffReport where
  compatible : Bool
  deleted_fields : List FieldTuple
  new_fields : List FieldTuple
deriving DecidableEq

/-- OSGEOManagerMixin.compare_schema on the two full schemas (the Python code
obtains them from layer1.get_full_schema() and layer2.get_full_schema(); the
full schema of a layer is its ordered field list).  Field names are
lower-cased when ignore_case, both schemas are sorted ascending by name,
new_fields are the fields of the first sorted schema absent from the second,
deleted_fields the inverse, both sorted again (a no-op on already sorted
lists, kept for fidelity), and compatible is equality of the sorted
schemas. -/
def compare_schema (schema1 schema2 : List FieldTuple) (ignore_case : Bool) :
    SchemaDiffReport :=
  let s1 := normSchema ignore_case schema1
  let s2 := normSchema ignore_case schema2
  { compatible := decide (s1 = s2)
    deleted_fields := sortByName (s2.filter (fun f => decide (f ∉ s1)))
    new_fields := sortByName (s1.filter (fun f => decide (f ∉ s2))) }

/-! ## base_manager.py : OSGEOManager -/

/-- Modelled from the spec: OSGEOLayer.copy_to_source of layers.py is not
under src/.  Per the LayerCopier component it copies the layer schema and
full feature set into the destination store, creating the layer under
target_name (or its own name), replacing an existing destination layer of
that name when overwrite; it returns the newly created layer and does not
modify the source layer.  temporary and launder only tune naming inside the
destination store and are irrelevant to the claims. -/
def copy_to_source (layer : OgrLayer) (dest : OgrSource)
    (overwrite temporary launder : Bool) (target_name : Option String) :
    OgrSource × OgrLayer :=
  let newName := target_name.getD layer.name
  let newLayer : OgrLayer := { layer with name := newName }
  let kept := if overwrite then dest.layers.filter (fun l => l.name != newName)
              else dest.layers
  (OgrSource.mk (kept ++ [newLayer]), newLayer)

/-- OSGEOManager.layer_to_postgis: inside an open_source scope on the
destination connection string, look the layer up by name in the manager
source, assert it (None is falsy, so a missing layer raises AssertionError),
then copy it into the destination.  The destination state is passed and
returned explicitly: the first component of the result is the destination
store after the call. -/
def layer_to_postgis (selfSource dest : OgrSource) (layername : String)
    (overwrite temporary launder : Bool) (target_name : Option String) :
    OgrSource × Except PyErr OgrLayer :=
  match selfSource.GetLayerByName layername with
  | none => (dest, Except.error PyErr.assertionError)
  | some layer =>
    let r := copy_to_source layer dest overwrite temporary launder target_name
    (r.1, Except.ok r.2)

/-- A row of the reserved style table:
(layer_name, geometry attribute, style name, style body). -/
abbrev StyleRow := String × String × String × String

/-- The contents of one produced archive file: its feature layers and its
reserved style table (absent until created). -/
structure Archive where
  layers : List OgrLayer
  styleTable : Option (List StyleRow)
deriving DecidableEq

/-- Modelled from the spec: StyleManager.create_table of styles.py is not
under src/; it creates the reserved (empty) style table inside the
archive. -/
def StyleManager.create_table (a : Archive) : Archive :=
  { a with styleTable := some [] }

/-- Modelled from the spec: StyleManager.add_style of styles.py is not under
src/; it inserts one row, marked default, at the end of the style table. -/
def StyleManager.add_style (a : Archive) (row : StyleRow) : Archive :=
  { a with styleTable := some (a.styleTable.getD [] ++ [row]) }

/-- Appends .gpkg when the destination path does not already end in it, as
the head of postgis_as_gpkg. -/
def ensureGpkgExt (p : String) : String :=
  if strEndsWith p ".gpkg" then p else p ++ ".gpkg"

/-- The layer selection of postgis_as_gpkg:

    layers = get_source_layers(src) if not layernames \
             else [l for l in get_source_layers(src) if l and l.name in layernames]

A falsy layernames value is either the absent default or an empty list: both
select every (non style table) layer of the source. -/
def selectLayers (postgis_source : OgrSource) (layernames : Option (List String)) :
    List GpkgLayer :=
  match layernames with
  | none => get_source_layers postgis_source
  | some names =>
    if names.isEmpty then get_source_layers postgis_source
    else (get_source_layers postgis_source).filter
      (fun l => names.contains (GpkgLayer.name l))

/-- OSGEOManager.postgis_as_gpkg: ensure the .gpkg extension, open the
connection inside an open_source scope, create the archive file, copy every
selected layer into it, return the archive path.  The first component lists
the files the call created on disk, each with its contents; when the
connection cannot be opened the body still creates the (empty) archive file
before iterating the absent handle raises typeError. -/
def postgis_as_gpkg (opener : String → Nat → Option OgrSource)
    (connectionString dest_path : String) (layernames : Option (List String)) :
    List (String × Archive) × Except PyErr String :=
  let path := ensureGpkgExt dest_path
  match opener connectionString 0 with
  | none => ([(path, Archive.mk [] none)], Except.error PyErr.typeError)
  | some postgis_source =>
    let copied := (selectLayers postgis_source layernames).map GpkgLayer.gpkg_layer
    ([(path, Archive.mk copied none)], Except.ok path)

/-- An entry of the external catalog (a geonode Layer record):
its qualified alternate name, the name of its first gml-typed attribute
(absent when the layer has none: reading .attribute of the absent query
result raises), and its default style (absent likewise). -/
structure StyleRef where
  name : String
  sld_url : String
deriving DecidableEq

/-- One registered layer of the external catalog. -/
structure CatalogEntry where
  alternate : String
  gmlAttribute : Option String
  default_style : Option StyleRef
deriving DecidableEq

/-- The environment a backup run observes: the filesystem predicates used by
the destination check, the native driver opener, the external catalog, the
formatted timestamp, the connection string built by get_connection, the style
body download, and the directory get_new_dir would allocate (os_utils.py is
not under src/; per the spec it allocates a fresh writable directory for the
absent-destination default). -/
structure BackupEnv where
  isdir : String → Bool
  writable : String → Bool
  opener : String → Nat → Option OgrSource
  catalog : List CatalogEntry
  timestamp : String
  connection : String
  get_sld_body : String → Except PyErr String
  new_dir : String

/-- The layer-selection loop of backup_portal: walk the catalog; for each
entry whose table name (the part of the alternate after the last colon)
exists in the open source, record the table name and its
(table, geometry attribute, style name, style body) row; resolving an absent
gml attribute or an absent default style raises attributeError, and the style
body download may raise.  Entries absent from the source are skipped. -/
def resolve_portal_layers (env : BackupEnv) (ds : OgrSource) :
    Except PyErr (List String × List StyleRow) :=
  env.catalog.foldlM
    (fun acc entry => do
      let table_name := lastSplitPart entry.alternate
      if source_layer_exists ds table_name then
        match entry.gmlAttribute with
        | none => Except.error PyErr.attributeError
        | some gattr =>
          match entry.default_style with
          | none => Except.error PyErr.attributeError
          | some style => do
            let body ← env.get_sld_body style.sld_url
            Except.ok (acc.1 ++ [table_name],
                       acc.2 ++ [(table_name, gattr, style.name, body)])
      else Except.ok acc)
    ([], [])

/-- Applies an in-place file edit to the file at the given path. -/
def updateFile (files : List (String × Archive)) (path : String)
    (f : Archive → Archive) : List (String × Archive) :=
  files.map (fun e => if e.1 = path then (e.1, f e.2) else e)

/-- The protected block of backup_portal (the body of its try):
1. raise when the destination is not a directory or not writable
   (before any file is created);
2. open the live source; when the opened handle is absent the guarded body is
   skipped and flushing the absent handle at scope exit raises attributeError;
3. select the registered layers present in the source and resolve their
   styles;
4. bulk-copy through postgis_as_gpkg into the timestamped archive;
5. create the style table in the archive and insert one default row per
   selected layer.
The first component lists the files created on disk (they are not cleaned up
on failure); the second is the outcome of the block. -/
def backup_attempt (env : BackupEnv) (dest_path : String) :
    List (String × Archive) × Except PyErr Unit :=
  let package_dir := dest_path ++ "/backup_" ++ env.timestamp ++ ".gpkg"
  if !env.isdir dest_path || !env.writable dest_path then
    ([], Except.error (PyErr.generic "maybe destination is not writable or not a directory"))
  else
    match env.opener env.connection 0 with
    | none => ([], Except.error PyErr.attributeError)
    | some ds =>
      match resolve_portal_layers env ds with
      | Except.error e => ([], Except.error e)
      | Except.ok (table_names, layer_styles) =>
        let r := postgis_as_gpkg env.opener env.connection package_dir (some table_names)
        match r.2 with
        | Except.error e => (r.1, Except.error e)
        | Except.ok gpkg_path =>
          (updateFile r.1 gpkg_path
            (fun a => layer_styles.foldl StyleManager.add_style
              (StyleManager.create_table a)), Except.ok ())

/-- The destination directory a run uses: the given one, or (when absent or
empty, both falsy) the directory get_new_dir allocates. -/
def effectiveDest (env : BackupEnv) : Option String → String
  | none => env.new_dir
  | some d => if d = "" then env.new_dir else d

/-- OSGEOManager.backup_portal: run the protected block; on success the
returned path is dest_path (set after the with block), on any caught
exception the result is absent.  The finally clause returns final_path in
every case, so the function never propagates an exception: its return type is
a plain pair, not an Except.  Files created before a failure stay on
disk. -/
def backup_portal (env : BackupEnv) (dest_path : Option String) :
    Option String × List (String × Archive) :=
  let dest := effectiveDest env dest_path
  match backup_attempt env dest with
  | (files, Except.ok _) => (some dest, files)
  | (files, Except.error _) => (none, files)

/-! ## Concrete evaluation environments -/

/-- A concrete source layer used by the closed evaluations. -/
def roadsLayer : OgrLayer := { name := "roads", fields := [("id", "int", 10)] }

/-- A concrete environment on which a backup run succeeds: a writable
destination /backups, a live source holding one layer roads, and a catalog
registering geonode:roads with its geometry attribute and default style. -/
def envA : BackupEnv :=
  { isdir := fun s => s == "/backups"
    writable := fun s => s == "/backups"
    opener := fun conn _ => if conn == "PG:db" then some (OgrSource.mk [roadsLayer]) else none
    catalog := [{ alternate := "geonode:roads"
                  gmlAttribute := some "the_geom"
                  default_style := some { name := "roads_style", sld_url := "http://gs/roads.sld" } }]
    timestamp := "2026_01_01-00_00_00"
    connection := "PG:db"
    get_sld_body := fun _ => Except.ok "<StyledLayerDescriptor/>"
    new_dir := "/downloads" }

/-- envA with an empty catalog: nothing is registered, so the backup
selection is empty while the live source still holds roads. -/
def envB : BackupEnv := { envA with catalog := [] }

/-- envA with an opener that can open nothing: step 2 of the pipeline
fails. -/
def envE : BackupEnv := { envA with opener := fun _ _ => none }

/-- envA with an unwritable destination. -/
def envD : BackupEnv := { envA with writable := fun _ => false }

/-! ## Helper lemmas -/

/-- Names of the style-filtered layer list, expressed as a filter on the
name list. -/
theorem filter_styles_names (ls : List OgrLayer) :
    (ls.filter (fun l => l.name != STYLES_TABLE)).map OgrLayer.name
      = (ls.map OgrLayer.name).filter (fun n => n != STYLES_TABLE) := by
  induction ls with
  | nil => rfl
  | cons l ls ih => cases hb : l.name != STYLES_TABLE <;> simp [List.filter_cons, hb, ih]

/-- Looking a name up in the raw source succeeds exactly when the name is
listed by the style-filtered enumeration, provided the name is not the
reserved one. -/
theorem find_name_iff_filtered (name : String) (ls : List OgrLayer)
    (h : name ≠ STYLES_TABLE) :
    ((ls.find? (fun l => l.name == name)).isSome = true ↔
      name ∈ (ls.filter (fun l => l.name != STYLES_TABLE)).map OgrLayer.name) := by
  induction ls with
  | nil => simp
  | cons l ls ih =>
    by_cases hl : l.name = name
    · subst hl
      have h2 : (l.name != STYLES_TABLE) = true := by simp [h]
      simp [List.find?_cons, List.filter_cons, h2]
    · have h1 : (l.name == name) = false := by simp [hl]
      by_cases hs : l.name = STYLES_TABLE
      · have h2 : (l.name != STYLES_TABLE) = false := by simp [hs]
        simpa [List.find?_cons, h1, List.filter_cons, h2] using ih
      · have h2 : (l.name != STYLES_TABLE) = true := by simp [hs]
        have hne : ¬ name = l.name := fun hx => hl hx.symm
        simpa [List.find?_cons, h1, List.filter_cons, h2, hne] using ih

/-- Folding add_style over a style table extends the rows in order. -/
theorem add_style_foldl (rows : List StyleRow) (a : Archive) (acc : List StyleRow) :
    rows.foldl StyleManager.add_style { a with styleTable := some acc }
      = { a with styleTable := some (acc ++ rows) } := by
  induction rows generalizing acc with
  | nil => simp
  | cons r rs ih =>
    have : StyleManager.add_style { a with styleTable := some acc } r
        = { a with styleTable := some (acc ++ [r]) } := by
      simp [StyleManager.add_style]
    simp [List.foldl, this, ih]

/-- Creating the style table and inserting every row leaves the feature
layers untouched and fills the table with exactly the given rows. -/
theorem style_rows_fold (rows : List StyleRow) (a : Archive) :
    rows.foldl StyleManager.add_style (StyleManager.create_table a)
      = { a with styleTable := some rows } := by
  have := add_style_foldl rows a []
  simpa [StyleManager.create_table] using this

/-- Names of the backup selection: style filter and membership filter on the
wrapped layers, expressed as one filter over the raw source name list. -/
theorem filtered_wrapped_names (ls : List OgrLayer) (src : OgrSource) (c : String → Bool) :
    ((((ls.filter (fun l => l.name != STYLES_TABLE)).map (fun l => GpkgLayer.mk l src)).filter
        (fun g => c (GpkgLayer.name g))).map GpkgLayer.gpkg_layer).map OgrLayer.name
      = (ls.map OgrLayer.name).filter (fun n => n != STYLES_TABLE && c n) := by
  induction ls with
  | nil => rfl
  | cons l ls ih =>
    simp only [List.map_map, GpkgLayer.name] at ih ⊢
    cases hb : l.name != STYLES_TABLE
    · simp [List.filter_cons, hb, ih]
    · cases hc : c l.name
      · simp [List.filter_cons, hb, hc, ih]
      · simp [List.filter_cons, hb, hc, ih]

/-- The layer names of a backup selection, as one filter over the source
name list: the reserved table is always dropped, and the name filter is only
active when the selected name list is nonempty. -/
theorem select_names (ds : OgrSource) (names : List String) :
    ((selectLayers ds (some names)).map GpkgLayer.gpkg_layer).map OgrLayer.name
      = (ds.layers.map OgrLayer.name).filter
          (fun n => n != STYLES_TABLE && (names.isEmpty || names.contains n)) := by
  cases hE : names.isEmpty
  · have := filtered_wrapped_names ds.layers ds (fun n => names.contains n)
    simpa [selectLayers, hE, get_source_layers] using this
  · have := filtered_wrapped_names ds.layers ds (fun _ => true)
    simpa [selectLayers, hE, get_source_layers] using this

/-- A successful protected block: on a writable destination directory, an
openable live source and a fully resolved selection, the block creates
exactly one file, the timestamped archive, holding the selected layer copies
and a style table with exactly the resolved rows. -/
theorem backup_attempt_success (env : BackupEnv) (d : String) (ds : OgrSource)
    (tn : List String) (lsty : List StyleRow)
    (h1 : env.isdir d = true) (h2 : env.writable d = true)
    (hopen : env.opener env.connection 0 = some ds)
    (hres : resolve_portal_layers env ds = Except.ok (tn, lsty)) :
    backup_attempt env d =
      ([(ensureGpkgExt (d ++ "/backup_" ++ env.timestamp ++ ".gpkg"),
         { layers := (selectLayers ds (some tn)).map GpkgLayer.gpkg_layer,
           styleTable := some lsty })], Except.ok ()) := by
  unfold backup_attempt
  simp only [h1, h2, hopen, hres, Bool.not_true, Bool.or_self, Bool.false_eq_true,
    if_false, ite_false]
  unfold postgis_as_gpkg
  simp only [hopen]
  simp [updateFile, style_rows_fold]

/-- A failing protected block makes the orchestrator return the absent
result, with the files the block created left on disk. -/
theorem backup_portal_error_case (env : BackupEnv) (o : Option String)
    (files : List (String × Archive)) (e : PyErr)
    (h : backup_attempt env (effectiveDest env o) = (files, Except.error e)) :
    backup_portal env o = (none, files) := by
  show (match backup_attempt env (effectiveDest env o) with
    | (files, Except.ok _) => (some (effectiveDest env o), files)
    | (files, Except.error _) => (none, files)) = (none, files)
  rw [h]

/-! ## Claims -/

/-- C9: compare of the two concrete full schemas of scenario B: with
ignore_case false it reports incompatible with new_fields the lower-case id
field and deleted_fields the upper-case ID field; with ignore_case true it
reports compatible with both lists empty. -/
theorem compare_schema_scenario_b :
    compare_schema [("id", "int", 10), ("name", "string", 50)]
        [("ID", "int", 10), ("name", "string", 50)] false
      = { compatible := false, deleted_fields := [("ID", "int", 10)],
          new_fields := [("id", "int", 10)] } ∧
    compare_schema [("id", "int", 10), ("name", "string", 50)]
        [("ID", "int", 10), ("name", "string", 50)] true
      = { compatible := true, deleted_fields := [], new_fields := [] } := by
  constructor <;> decide

/-- C10: for all pairs of full schemas and either ignore_case value, the
compatible verdict is symmetric in the two schemas, and the new_fields of a
comparison are the deleted_fields of the swapped comparison. -/
theorem compare_schema_symm_dual (s1 s2 : List FieldTuple) (ic : Bool) :
    (compare_schema s1 s2 ic).compatible = (compare_schema s2 s1 ic).compatible ∧
    (compare_schema s1 s2 ic).new_fields = (compare_schema s2 s1 ic).deleted_fields := by
  refine ⟨?_, rfl⟩
  show decide (normSchema ic s1 = normSchema ic s2)
      = decide (normSchema ic s2 = normSchema ic s1)
  exact decide_eq_decide.mpr eq_comm

/-- C1 counterexample: a source holding one table named exactly the reserved
style-table name.  layer_exists reports true for that name while the layer
enumeration lists nothing, so the claimed equivalence fails at this input. -/
theorem styles_table_breaks_layer_exists_iff :
    source_layer_exists (OgrSource.mk [OgrLayer.mk STYLES_TABLE []]) STYLES_TABLE = true ∧
    (get_source_layers (OgrSource.mk [OgrLayer.mk STYLES_TABLE []])).map GpkgLayer.name
      = [] := ⟨rfl, rfl⟩

/-- C1 (amended): for every source and every layer name other than the
reserved style-table name, layer_exists holds exactly when the name appears
in the enumeration returned by get_source_layers. -/
theorem layer_exists_iff_listed (source : OgrSource) (name : String)
    (h : name ≠ STYLES_TABLE) :
    source_layer_exists source name = true ↔
      name ∈ (get_source_layers source).map GpkgLayer.name := by
  have := find_name_iff_filtered name source.layers h
  simpa [source_layer_exists, OgrSource.GetLayerByName, get_source_layers,
    GpkgLayer.name, List.map_map, Function.comp] using this

/-- C1 witness: the amended equivalence evaluated on a one-layer source. -/
theorem layer_exists_iff_listed_witness :
    source_layer_exists (OgrSource.mk [roadsLayer]) "roads" = true ↔
      "roads" ∈ (get_source_layers (OgrSource.mk [roadsLayer])).map GpkgLayer.name :=
  layer_exists_iff_listed (OgrSource.mk [roadsLayer]) "roads" (by decide)

/-- C2 counterexample: a backup run that completes successfully on envA.
The run creates exactly one file, the archive
/backups/backup_2026_01_01-00_00_00.gpkg, yet returns the destination
directory /backups, which is not the archive path. -/
theorem backup_portal_path_cex :
    (backup_portal envA (some "/backups")).1 = some "/backups" ∧
    (backup_portal envA (some "/backups")).2.map Prod.fst
      = ["/backups/backup_2026_01_01-00_00_00.gpkg"] ∧
    ("/backups" : String) ≠ "/backups/backup_2026_01_01-00_00_00.gpkg" :=
  ⟨rfl, rfl, by decide⟩

/-- C2 (amended): whenever backup_portal returns a present path, that path is
the destination directory the run used, not the path of the archive file
created inside it. -/
theorem backup_portal_returns_destination (env : BackupEnv) (o : Option String)
    (p : String) (h : (backup_portal env o).1 = some p) :
    p = effectiveDest env o := by
  revert h
  show (match backup_attempt env (effectiveDest env o) with
    | (files, Except.ok _) => (some (effectiveDest env o), files)
    | (files, Except.error _) => (none, files)).1 = some p → p = effectiveDest env o
  cases backup_attempt env (effectiveDest env o) with
  | mk files r =>
    cases r with
    | ok u => intro h; exact (Option.some_inj.mp h).symm
    | error e => intro h; exact absurd h (by simp)

/-- C2 witness: the amended statement evaluated on the successful envA
run. -/
theorem backup_portal_returns_destination_witness :
    ("/backups" : String) = effectiveDest envA (some "/backups") :=
  backup_portal_returns_destination envA (some "/backups") "/backups" rfl

/-- C3 counterexample: a location no driver can open.  open_source raises no
SourceOpenError: the with-block body runs and observes the absent handle (the
recorded generic error proves the body saw None), and the error the scope
produces is the body error, not SourceOpenError. -/
theorem open_source_absent_handle_cex :
    open_source (fun _ _ => none) "missing.gpkg" 0
        (fun src => if src.isSome then Except.ok 0
                    else Except.error (PyErr.generic "body saw an absent handle"))
      = (Except.error (PyErr.generic "body saw an absent handle"), []) ∧
    PyErr.generic "body saw an absent handle" ≠ PyErr.sourceOpenError :=
  ⟨rfl, by decide⟩

/-- C3 (amended): when the location cannot be opened, open_source yields the
absent handle into the scope instead of raising SourceOpenError; if the body
then completes normally, flushing the absent handle at scope exit raises
AttributeError (still not SourceOpenError) and no flush or release event is
performed. -/
theorem open_source_unopenable_yields_none {α : Type}
    (opener : String → Nat → Option OgrSource) (path : String) (u : Nat)
    (body : Option OgrSource → Except PyErr α) (a : α)
    (hopen : opener path u = none) (hbody : body none = Except.ok a) :
    open_source opener path u body = (Except.error PyErr.attributeError, []) := by
  simp [open_source, hopen, hbody]

/-- C3 witness: the amended statement evaluated at a concrete unopenable
location. -/
theorem open_source_unopenable_yields_none_witness :
    open_source (fun _ _ => none) "missing.gpkg" 0 (fun _ => Except.ok 42)
      = (Except.error PyErr.attributeError, []) :=
  open_source_unopenable_yields_none (fun _ _ => none) "missing.gpkg" 0
    (fun _ => Except.ok 42) 42 rfl rfl

/-- C4 counterexample: copying the nonexistent layer lakes out of a source
holding only roads.  The operation raises AssertionError, which is not
LayerNotFoundError, and returns the destination store unchanged. -/
theorem layer_to_postgis_assertion_cex :
    (layer_to_postgis (OgrSource.mk [roadsLayer]) (OgrSource.mk [OgrLayer.mk "existing" []])
        "lakes" true false false none).2 = Except.error PyErr.assertionError ∧
    PyErr.assertionError ≠ PyErr.layerNotFoundError ∧
    (layer_to_postgis (OgrSource.mk [roadsLayer]) (OgrSource.mk [OgrLayer.mk "existing" []])
        "lakes" true false false none).1 = OgrSource.mk [OgrLayer.mk "existing" []] :=
  ⟨rfl, by decide, rfl⟩

/-- C4 (amended): for every layer name absent from the source, the copy
operation fails by raising AssertionError (the failed assert layer), and the
destination store is returned unmodified. -/
theorem layer_to_postgis_missing_layer (selfSource dest : OgrSource)
    (layername : String) (overwrite temporary launder : Bool)
    (target_name : Option String)
    (h : source_layer_exists selfSource layername = false) :
    layer_to_postgis selfSource dest layername overwrite temporary launder target_name
      = (dest, Except.error PyErr.assertionError) := by
  unfold layer_to_postgis
  unfold source_layer_exists at h
  cases hfind : selfSource.GetLayerByName layername with
  | none => rfl
  | some l => rw [hfind] at h; simp at h

/-- C4 witness: the amended statement evaluated at a concrete missing
name. -/
theorem layer_to_postgis_missing_layer_witness :
    layer_to_postgis (OgrSource.mk [roadsLayer]) (OgrSource.mk []) "lakes"
        true false false none
      = (OgrSource.mk [], Except.error PyErr.assertionError) :=
  layer_to_postgis_missing_layer (OgrSource.mk [roadsLayer]) (OgrSource.mk [])
    "lakes" true false false none rfl

/-- C5 counterexample: on envB nothing is registered, so the selected set is
empty, yet the produced archive contains the unselected source layer roads:
an empty selection disables the name filter instead of selecting nothing. -/
theorem backup_empty_selection_cex :
    resolve_portal_layers envB (OgrSource.mk [roadsLayer]) = Except.ok ([], []) ∧
    (backup_portal envB (some "/backups")).2.map (fun f => f.2.layers.map OgrLayer.name)
      = [["roads"]] :=
  ⟨rfl, rfl⟩

/-- C5 (amended): on a successful backup run the archive feature layers are
the source layers other than the reserved style table that pass the name
filter of the selected set - exactly the selected (registered and
source-present) layers when that set is nonempty, but every source layer
when the selected set is empty, because an empty list is falsy and disables
the filter. -/
theorem backup_portal_copies_selected (env : BackupEnv) (d : String)
    (ds : OgrSource) (table_names : List String) (layer_styles : List StyleRow)
    (hne : d ≠ "") (h1 : env.isdir d = true) (h2 : env.writable d = true)
    (hopen : env.opener env.connection 0 = some ds)
    (hres : resolve_portal_layers env ds = Except.ok (table_names, layer_styles)) :
    (backup_portal env (some d)).2.map (fun f => f.2.layers.map OgrLayer.name)
      = [(ds.layers.map OgrLayer.name).filter
          (fun n => n != STYLES_TABLE
            && (table_names.isEmpty || table_names.contains n))] := by
  have hd : effectiveDest env (some d) = d := by simp [effectiveDest, hne]
  have hatt := backup_attempt_success env d ds table_names layer_styles h1 h2 hopen hres
  have hrun : backup_portal env (some d)
      = (some d,
         [(ensureGpkgExt (d ++ "/backup_" ++ env.timestamp ++ ".gpkg"),
           { layers := (selectLayers ds (some table_names)).map GpkgLayer.gpkg_layer,
             styleTable := some layer_styles })]) := by
    show (match backup_attempt env (effectiveDest env (some d)) with
      | (files, Except.ok _) => (some (effectiveDest env (some d)), files)
      | (files, Except.error _) => (none, files)) = _
    rw [hd, hatt]
  rw [hrun]
  simp only [List.map_cons, List.map_nil]
  rw [← select_names ds table_names]

/-- C5 witness: the amended statement evaluated on the successful envA run,
whose selected set is the single present registered layer roads. -/
theorem backup_portal_copies_selected_witness :
    (backup_portal envA (some "/backups")).2.map (fun f => f.2.layers.map OgrLayer.name)
      = [((OgrSource.mk [roadsLayer]).layers.map OgrLayer.name).filter
          (fun n => n != STYLES_TABLE
            && ((["roads"] : List String).isEmpty || (["roads"] : List String).contains n))] :=
  backup_portal_copies_selected envA "/backups" (OgrSource.mk [roadsLayer])
    ["roads"] [("roads", "the_geom", "roads_style", "<StyledLayerDescriptor/>")]
    (by decide) rfl rfl rfl rfl

/-- C6: backup_portal never propagates an exception of the protected block
(its return type is a plain pair, so no Except value escapes); whenever the
protected block raises any exception, the orchestrator catches it and
returns the absent result, with whatever files were already created left on
disk. -/
theorem backup_portal_swallows_errors (env : BackupEnv) (o : Option String)
    (files : List (String × Archive)) (e : PyErr)
    (h : backup_attempt env (effectiveDest env o) = (files, Except.error e)) :
    backup_portal env o = (none, files) :=
  backup_portal_error_case env o files e h

/-- C6 witness: on envE the live source cannot be opened, the protected
block raises, and the orchestrator returns the absent result. -/
theorem backup_portal_swallows_errors_witness :
    backup_portal envE (some "/backups") = (none, []) :=
  backup_portal_swallows_errors envE (some "/backups") [] PyErr.attributeError rfl

/-- C7: a backup run whose given destination is not a directory or not
writable returns the absent result and creates no file: the destination
check precedes every file-creating step. -/
theorem backup_portal_unwritable_dest (env : BackupEnv) (d : String)
    (hne : d ≠ "")
    (h : env.isdir d = false ∨ env.writable d = false) :
    backup_portal env (some d) = (none, []) := by
  have hd : effectiveDest env (some d) = d := by simp [effectiveDest, hne]
  have ha : backup_attempt env d
      = ([], Except.error
          (PyErr.generic "maybe destination is not writable or not a directory")) := by
    unfold backup_attempt
    rcases h with h | h <;> simp [h]
  exact backup_portal_error_case env (some d) []
    (PyErr.generic "maybe destination is not writable or not a directory")
    (by rw [hd, ha])

/-- C7 witness: the statement evaluated on envD, whose destination is not
writable. -/
theorem backup_portal_unwritable_dest_witness :
    backup_portal envD (some "/backups") = (none, []) :=
  backup_portal_unwritable_dest envD "/backups" (by decide) (Or.inr rfl)

/-- C8 counterexample: a body that raises inside an open scope.  The
exception propagates, but the event trace of the scope is empty: contrary to
the claim, the handle is not released on the exception path (and, as the
claim does say, nothing is flushed) - the generator performs its flush and
its reference clearing only after the yield returns normally. -/
theorem open_source_error_no_release_cex :
    open_source (fun _ _ => some (OgrSource.mk [])) "a.gpkg" 0
        (fun _ => (Except.error PyErr.assertionError : Except PyErr Nat))
      = (Except.error PyErr.assertionError, []) ∧
    ((open_source (fun _ _ => some (OgrSource.mk [])) "a.gpkg" 0
        (fun _ => (Except.error PyErr.assertionError : Except PyErr Nat))).2.contains
      ScopeEvent.released) = false :=
  ⟨rfl, rfl⟩

/-- C8 (amended): on normal exit of a scope over a successfully opened
handle, the pending writes are flushed and then the handle is released, in
that order; on an exception raised inside the scope the exception propagates
and the scope performs neither a flush nor an explicit release (the handle
reference is left to the runtime garbage collector). -/
theorem open_source_scope_semantics {α : Type}
    (opener : String → Nat → Option OgrSource) (path : String) (u : Nat)
    (body : Option OgrSource → Except PyErr α) :
    (∀ (src : OgrSource) (a : α), opener path u = some src →
      body (some src) = Except.ok a →
      open_source opener path u body
        = (Except.ok a, [ScopeEvent.flushed, ScopeEvent.released])) ∧
    (∀ (e : PyErr), body (opener path u) = Except.error e →
      open_source opener path u body = (Except.error e, [])) := by
  constructor
  · intro src a hs hb
    simp [open_source, hs, hb]
  · intro e hb
    simp [open_source, hb]

/-- C8 witness: both branches of the amended statement evaluated on concrete
scopes. -/
theorem open_source_scope_semantics_witness :
    open_source (fun _ _ => some (OgrSource.mk [])) "a.gpkg" 0 (fun _ => Except.ok 7)
      = (Except.ok 7, [ScopeEvent.flushed, ScopeEvent.released]) ∧
    open_source (fun _ _ => some (OgrSource.mk [])) "a.gpkg" 0
        (fun _ => (Except.error PyErr.typeError : Except PyErr Nat))
      = (Except.error PyErr.typeError, []) :=
  ⟨(open_source_scope_semantics (fun _ _ => some (OgrSource.mk [])) "a.gpkg" 0
      (fun _ => Except.ok 7)).1 (OgrSource.mk []) 7 rfl rfl,
   (open_source_scope_semantics (fun _ _ => some (OgrSource.mk [])) "a.gpkg" 0
      (fun _ => (Except.error PyErr.typeError : Except PyErr Nat))).2
      PyErr.typeError rfl⟩

end OsgeoManager
